import Mathlib

/-!
Verification of the claim-migration engine of `lbry.go` (package `claim`):
a shallow embedding of `newClaim`, `setMetaData`, `setFee` and the three
version migrators `migrateV1Claim` / `migrateV2Claim` / `migrateV3Claim`,
together with the two encoding adapters they delegate to
(`encoding/hex.DecodeString` and `btcsuite/btcutil/base58.Decode`).

Machine integers never overflow in this code (bytes are values below 256
produced by the decoders), so bytes are modelled as `Nat`.  Fee amounts are
`float32` in Go but are only ever copied, never computed with, so they are
modelled as `Rat`.  Go `nil` pointers become `Option`.
-/

namespace LbryClaim

/-! ## Encoding adapter: `encoding/hex.DecodeString`

Go's `hex.DecodeString` decodes two hex characters per output byte, left to
right; on a malformed input it returns the bytes decoded before the error
together with the error (an invalid byte error, or a length error when the
input has odd length and all complete pairs decoded). -/

/-- Error values of the hex decoder: `hex.InvalidByteError` carries the
offending character, `hex.ErrLength` reports an odd-length input. -/
inductive HexError where
  | invalidByte (c : Char) : HexError
  | errLength : HexError
  deriving DecidableEq, Repr

/-- Go `encoding/hex.fromHexChar`: value of one hex digit character. -/
def fromHexChar (c : Char) : Option Nat :=
  if '0' ≤ c ∧ c ≤ '9' then some (c.toNat - '0'.toNat)
  else if 'a' ≤ c ∧ c ≤ 'f' then some (c.toNat - 'a'.toNat + 10)
  else if 'A' ≤ c ∧ c ≤ 'F' then some (c.toNat - 'A'.toNat + 10)
  else none

/-- Go `encoding/hex.Decode` on a list of characters: bytes decoded before
any error, and the error if one occurred.  A trailing lone character is
reported as an invalid byte when it is not a hex digit, otherwise as a
length error, exactly as in the Go source. -/
def hexDecodeChars : List Char → List Nat × Option HexError
  | p :: q :: rest =>
    match fromHexChar p with
    | none => ([], some (HexError.invalidByte p))
    | some a =>
      match fromHexChar q with
      | none => ([], some (HexError.invalidByte q))
      | some b =>
        let r := hexDecodeChars rest
        ((a * 16 + b) :: r.1, r.2)
  | [c] =>
    match fromHexChar c with
    | none => ([], some (HexError.invalidByte c))
    | some _ => ([], some HexError.errLength)
  | [] => ([], none)

/-- Go `encoding/hex.DecodeString`. -/
def hexDecodeString (s : String) : List Nat × Option HexError :=
  hexDecodeChars s.data

/-! ## Encoding adapter: `btcsuite/btcutil/base58.Decode`

The btcutil decoder folds the string into a big integer over the 58-letter
alphabet, returning an empty byte slice as soon as it meets a character
outside the alphabet; the big integer's minimal big-endian bytes are
prefixed with one zero byte per leading `'1'` of the input. -/

/-- The standard base58 alphabet used by btcutil. -/
def b58Alphabet : List Char :=
  "123456789ABCDEFGHJKLMNPQRSTUVWXYZabcdefghijkmnopqrstuvwxyz".data

/-- Value of one base58 digit: its position in the alphabet, or `none` for a
character outside the alphabet (btcutil's 255 table entry). -/
def b58Digit (c : Char) : Option Nat :=
  b58Alphabet.findIdx? (fun x => x = c)

/-- Values of all digits of the input, or `none` as soon as one character is
outside the alphabet (the btcutil loop returns an empty slice there). -/
def b58Digits : List Char → Option (List Nat)
  | [] => some []
  | c :: rest =>
    match b58Digit c with
    | none => none
    | some d =>
      match b58Digits rest with
      | none => none
      | some ds => some (d :: ds)

/-- Minimal big-endian base-256 digits of a natural number (`big.Int.Bytes`):
empty for zero.  The extra first argument is fuel bounding the recursion
depth; `natToBytes` supplies enough. -/
def natToBytesAux : Nat → Nat → List Nat → List Nat
  | _, 0, acc => acc
  | n, fuel + 1, acc => if n = 0 then acc else natToBytesAux (n / 256) fuel (n % 256 :: acc)

/-- Minimal big-endian bytes of a natural number, empty for zero. -/
def natToBytes (n : Nat) : List Nat :=
  natToBytesAux n n []

/-- Number of leading `'1'` characters of the input (each stands for one
leading zero byte of the decoded value). -/
def countLeadingOnes : List Char → Nat
  | [] => 0
  | c :: rest => if c = '1' then countLeadingOnes rest + 1 else 0

/-- Go `btcutil/base58.Decode`: on any character outside the alphabet the
result is the zero-length byte sequence, never an error. -/
def base58Decode (s : String) : List Nat :=
  match b58Digits s.data with
  | none => []
  | some ds =>
    let n := ds.foldl (fun acc d => acc * 58 + d) 0
    List.replicate (countLeadingOnes s.data) 0 ++ natToBytes n

/-! ## Canonical (protobuf) claim model

The target types come from the generated protobuf package
`github.com/lbryio/types/go` (an external dependency of the repository):
every message field is a pointer (here `Option`), byte slices are lists of
byte values, and enums are naturals with the proto zero value at 0. -/

/-- Currency enum of the canonical `pb.Fee` message. -/
inductive Fee_Currency where
  | LBC : Fee_Currency
  | BTC : Fee_Currency
  | USD : Fee_Currency
  deriving DecidableEq, Repr

/-- Enum constant `pb.Fee__0_0_1`. -/
def Fee__0_0_1 : Nat := 1

/-- Enum constant `pb.Metadata__0_1_0`. -/
def Metadata__0_1_0 : Nat := 4

/-- Enum constant `pb.Source__0_0_1`. -/
def Source__0_0_1 : Nat := 1

/-- Enum constant `pb.Stream__0_0_1`. -/
def Stream__0_0_1 : Nat := 1

/-- Enum constant `pb.Claim__0_0_1`. -/
def Claim__0_0_1 : Nat := 1

/-- Enum constant `pb.Claim_streamType`. -/
def Claim_streamType : Nat := 1

/-- Representative entries of the generated map `pb.Metadata_Language_value`
from language code text to the `Metadata_Language` enum value; the zero
value `UNKNOWN_LANGUAGE` is 0 and unlisted text falls back to it via Go map
indexing. -/
def Metadata_Language_value : List (String × Nat) :=
  [("UNKNOWN_LANGUAGE", 0), ("en", 1), ("aa", 2), ("ab", 3), ("ae", 4),
   ("af", 5), ("ak", 6), ("am", 7), ("de", 32), ("es", 40), ("fr", 47)]

/-- Representative entries of the generated map `pb.Source_SourceTypes_value`
from source-kind text to the `Source_SourceTypes` enum value. -/
def Source_SourceTypes_value : List (String × Nat) :=
  [("UNKNOWN_SOURCE", 0), ("lbry_sd_hash", 1)]

/-- Go map indexing on a string-keyed table of enum values: the value of the
first exact key match, or the zero value 0 when the key is absent. -/
def mapIndex (table : List (String × Nat)) (key : String) : Nat :=
  ((table.find? (fun p => p.1 == key)).map Prod.snd).getD 0

/-- The source-kind constant `lbrySDHash` of the migration engine. -/
def lbrySDHash : String := "lbry_sd_hash"

/-- Message `pb.Fee` (canonical fee). -/
structure PbFee where
  version : Option Nat := none
  currency : Option Fee_Currency := none
  amount : Option Rat := none
  address : Option (List Nat) := none
  deriving DecidableEq, Repr

/-- Message `pb.Source` (canonical source descriptor). -/
structure PbSource where
  version : Option Nat := none
  contentType : Option String := none
  sourceType : Option Nat := none
  source : Option (List Nat) := none
  deriving DecidableEq, Repr

/-- Message `pb.Metadata` (canonical metadata). -/
structure PbMetadata where
  version : Option Nat := none
  author : Option String := none
  description : Option String := none
  language : Option Nat := none
  license : Option String := none
  licenseUrl : Option String := none
  title : Option String := none
  thumbnail : Option String := none
  nsfw : Option Bool := none
  fee : Option PbFee := none
  deriving DecidableEq, Repr

/-- Message `pb.Stream`. -/
structure PbStream where
  version : Option Nat := none
  metadata : Option PbMetadata := none
  source : Option PbSource := none
  deriving DecidableEq, Repr

/-- Message `pb.Signature` (publisher signature); the migrators only ever
set or clear the whole message, so its zero value suffices. -/
structure PbSignature where
  version : Option Nat := none
  signatureType : Option Nat := none
  signatureBytes : Option (List Nat) := none
  certificateId : Option (List Nat) := none
  deriving DecidableEq, Repr

/-- Message `pb.Claim` (root of the canonical claim). -/
structure PbClaim where
  version : Option Nat := none
  claimType : Option Nat := none
  stream : Option PbStream := none
  publisherSignature : Option PbSignature := none
  deriving DecidableEq, Repr

/-! ## Legacy record model

The legacy record structs (`Fee`, `V1Claim`, `V2Claim`, `V3Claim`) belong to
this repository but their declaring file is not among the sources at hand;
they are modelled from the spec. -/

/-- Modelled from the spec: one populated branch of the legacy fee
descriptor carries a floating-point amount (only ever copied; see the file
comment) and a text payment address. -/
structure FeeInfo where
  Amount : Rat
  Address : String
  deriving DecidableEq, Repr

/-- Modelled from the spec: the legacy fee descriptor, a tagged union with
at most one populated branch among BTC, LBC, USD, realized as three nullable
branch pointers as in the Go struct consumed by `setFee`. -/
structure Fee where
  BTC : Option FeeInfo
  LBC : Option FeeInfo
  USD : Option FeeInfo
  deriving DecidableEq, Repr

/-- Modelled from the spec: the nested source descriptor of a legacy record,
holding the hex-encoded content digest consumed as `.Sources.LbrySDHash`. -/
structure LegacySources where
  LbrySDHash : String
  deriving DecidableEq, Repr

/-- Modelled from the spec: a V1 legacy record — author, description,
free-text language, license, title, optional thumbnail, content type, the
nested source descriptor and an optional fee; V1 carries neither a license
URL nor an NSFW flag. -/
structure V1Claim where
  Author : String
  Description : String
  Language : String
  License : String
  Title : String
  Thumbnail : Option String
  ContentType : String
  Sources : LegacySources
  Fee : Option Fee
  deriving DecidableEq, Repr

/-- Modelled from the spec: a V2 legacy record — the V1 fields plus an
optional license URL and an NSFW flag. -/
structure V2Claim where
  Author : String
  Description : String
  Language : String
  License : String
  LicenseURL : Option String
  Title : String
  Thumbnail : Option String
  NSFW : Bool
  ContentType : String
  Sources : LegacySources
  Fee : Option Fee
  deriving DecidableEq, Repr

/-- Modelled from the spec: a V3 legacy record, carrying the same migrated
fields as V2. -/
structure V3Claim where
  Author : String
  Description : String
  Language : String
  License : String
  LicenseURL : Option String
  Title : String
  Thumbnail : Option String
  NSFW : Bool
  ContentType : String
  Sources : LegacySources
  Fee : Option Fee
  deriving DecidableEq, Repr

/-! ## Migration engine

Direct embedding of `newClaim`, `setMetaData`, `setFee` and the three
migrators.  The Go setters mutate through the pointers reached by the
`GetStream().GetMetadata()...` chains; here each becomes a functional update
applied under the corresponding `Option` layers (every call site works on a
claim freshly built by `newClaim`, where every layer is present). -/

/-- Update the `Stream` sub-message in place (`pbClaim.GetStream()` chain). -/
def updStream (c : PbClaim) (f : PbStream → PbStream) : PbClaim :=
  { c with stream := c.stream.map f }

/-- Update the `Metadata` sub-message in place. -/
def updMetadata (c : PbClaim) (f : PbMetadata → PbMetadata) : PbClaim :=
  updStream c (fun st => { st with metadata := st.metadata.map f })

/-- Update the `Source` sub-message in place. -/
def updSource (c : PbClaim) (f : PbSource → PbSource) : PbClaim :=
  updStream c (fun st => { st with source := st.source.map f })

/-- Update the `Fee` sub-message in place. -/
def updFee (c : PbClaim) (f : PbFee → PbFee) : PbClaim :=
  updMetadata c (fun m => { m with fee := m.fee.map f })

/-- Go `newClaim`: allocates every sub-message (including a `Fee` attached
to the metadata and a publisher signature) and sets every version tag and
the claim type to the fixed constants. -/
def newClaim : PbClaim :=
  let fee : PbFee := { version := some Fee__0_0_1 }
  let metadata : PbMetadata := { version := some Metadata__0_1_0, fee := some fee }
  let source : PbSource := { version := some Source__0_0_1 }
  let stream : PbStream :=
    { version := some Stream__0_0_1, metadata := some metadata, source := some source }
  { version := some Claim__0_0_1
    claimType := some Claim_streamType
    stream := some stream
    publisherSignature := some {} }

/-- Go `setMetaData`: writes the scalar metadata fields through the
`GetStream().GetMetadata()` pointer chain. -/
def setMetaData (claim : PbClaim) (author description : String) (language : Nat)
    (license : String) (licenseURL : Option String) (title : String)
    (thumbnail : Option String) (nsfw : Bool) : PbClaim :=
  updMetadata claim (fun m =>
    { m with
      author := some author
      description := some description
      language := some language
      license := some license
      title := some title
      thumbnail := thumbnail
      nsfw := some nsfw
      licenseUrl := licenseURL })

/-- Go `setFee`: when the legacy fee descriptor is present, picks the first
populated branch in the order BTC, LBC, USD (defaulting to amount 0,
currency LBC, empty address when none is populated) and writes amount,
currency and the base58-decoded address into the canonical fee; when the
descriptor is absent, leaves the claim untouched. -/
def setFee (fee : Option Fee) (pbClaim : PbClaim) : PbClaim :=
  match fee with
  | none => pbClaim
  | some f =>
    let sel : Rat × Fee_Currency × String :=
      match f.BTC with
      | some b => (b.Amount, Fee_Currency.BTC, b.Address)
      | none =>
        match f.LBC with
        | some l => (l.Amount, Fee_Currency.LBC, l.Address)
        | none =>
          match f.USD with
          | some u => (u.Amount, Fee_Currency.USD, u.Address)
          | none => (0, Fee_Currency.LBC, "")
    updFee pbClaim (fun fe =>
      { fe with
        amount := some sel.1
        currency := some sel.2.1
        address := some (base58Decode sel.2.2) })

/-- Go `migrateV1Claim`: builds a fresh skeleton, clears the publisher
signature, attaches the fee, fills metadata (no license URL, NSFW false for
V1) and the source fields, and returns the claim together with the hex
decoder's error value. -/
def migrateV1Claim (vClaim : V1Claim) : PbClaim × Option HexError :=
  let pbClaim := newClaim
  let pbClaim := { pbClaim with publisherSignature := none }
  let pbClaim := setFee vClaim.Fee pbClaim
  let language := mapIndex Metadata_Language_value vClaim.Language
  let pbClaim := setMetaData pbClaim vClaim.Author vClaim.Description language
    vClaim.License none vClaim.Title vClaim.Thumbnail false
  let pbClaim := updSource pbClaim (fun s => { s with contentType := some vClaim.ContentType })
  let sourceType := mapIndex Source_SourceTypes_value lbrySDHash
  let pbClaim := updSource pbClaim (fun s => { s with sourceType := some sourceType })
  let res := hexDecodeString vClaim.Sources.LbrySDHash
  let pbClaim := updSource pbClaim (fun s => { s with source := some res.1 })
  (pbClaim, res.2)

/-- Go `migrateV2Claim`: as V1, but the license URL and NSFW flag come from
the record. -/
def migrateV2Claim (vClaim : V2Claim) : PbClaim × Option HexError :=
  let pbClaim := newClaim
  let pbClaim := { pbClaim with publisherSignature := none }
  let pbClaim := setFee vClaim.Fee pbClaim
  let language := mapIndex Metadata_Language_value vClaim.Language
  let pbClaim := setMetaData pbClaim vClaim.Author vClaim.Description language
    vClaim.License vClaim.LicenseURL vClaim.Title vClaim.Thumbnail vClaim.NSFW
  let pbClaim := updSource pbClaim (fun s => { s with contentType := some vClaim.ContentType })
  let sourceType := mapIndex Source_SourceTypes_value lbrySDHash
  let pbClaim := updSource pbClaim (fun s => { s with sourceType := some sourceType })
  let res := hexDecodeString vClaim.Sources.LbrySDHash
  let pbClaim := updSource pbClaim (fun s => { s with source := some res.1 })
  (pbClaim, res.2)

/-- Go `migrateV3Claim`: textually the same transformation as V2 on the V3
record type. -/
def migrateV3Claim (vClaim : V3Claim) : PbClaim × Option HexError :=
  let pbClaim := newClaim
  let pbClaim := { pbClaim with publisherSignature := none }
  let pbClaim := setFee vClaim.Fee pbClaim
  let language := mapIndex Metadata_Language_value vClaim.Language
  let pbClaim := setMetaData pbClaim vClaim.Author vClaim.Description language
    vClaim.License vClaim.LicenseURL vClaim.Title vClaim.Thumbnail vClaim.NSFW
  let pbClaim := updSource pbClaim (fun s => { s with contentType := some vClaim.ContentType })
  let sourceType := mapIndex Source_SourceTypes_value lbrySDHash
  let pbClaim := updSource pbClaim (fun s => { s with sourceType := some sourceType })
  let res := hexDecodeString vClaim.Sources.LbrySDHash
  let pbClaim := updSource pbClaim (fun s => { s with source := some res.1 })
  (pbClaim, res.2)

/-! ## Getters over the canonical claim -/

/-- Metadata of a claim, when every layer on the path is present. -/
def getMetadata (c : PbClaim) : Option PbMetadata :=
  c.stream.bind PbStream.metadata

/-- Source sub-message of a claim. -/
def getSource (c : PbClaim) : Option PbSource :=
  c.stream.bind PbStream.source

/-- Fee sub-message of a claim's metadata. -/
def getFee (c : PbClaim) : Option PbFee :=
  (getMetadata c).bind PbMetadata.fee

/-- Version tag of the stream sub-message. -/
def getStreamVersion (c : PbClaim) : Option Nat :=
  c.stream.bind PbStream.version

/-- Version tag of the metadata sub-message. -/
def getMetadataVersion (c : PbClaim) : Option Nat :=
  (getMetadata c).bind PbMetadata.version

/-- Version tag of the source sub-message. -/
def getSourceVersion (c : PbClaim) : Option Nat :=
  (getSource c).bind PbSource.version

/-- Version tag of the fee sub-message. -/
def getFeeVersion (c : PbClaim) : Option Nat :=
  (getFee c).bind PbFee.version

/-- Currency of the fee sub-message. -/
def getFeeCurrency (c : PbClaim) : Option Fee_Currency :=
  (getFee c).bind PbFee.currency

/-- Amount of the fee sub-message. -/
def getFeeAmount (c : PbClaim) : Option Rat :=
  (getFee c).bind PbFee.amount

/-- Address bytes of the fee sub-message. -/
def getFeeAddress (c : PbClaim) : Option (List Nat) :=
  (getFee c).bind PbFee.address

/-- Author of the metadata. -/
def getAuthor (c : PbClaim) : Option String :=
  (getMetadata c).bind PbMetadata.author

/-- Language enum value of the metadata. -/
def getLanguage (c : PbClaim) : Option Nat :=
  (getMetadata c).bind PbMetadata.language

/-- NSFW flag of the metadata. -/
def getNsfw (c : PbClaim) : Option Bool :=
  (getMetadata c).bind PbMetadata.nsfw

/-- License URL of the metadata. -/
def getLicenseUrl (c : PbClaim) : Option String :=
  (getMetadata c).bind PbMetadata.licenseUrl

/-- Decoded content-digest bytes of the source sub-message. -/
def getSourceBytes (c : PbClaim) : Option (List Nat) :=
  (getSource c).bind PbSource.source

/-- All five canonical version tags and the claim type equal the engine's
fixed constants. -/
def versionTagsFixed (c : PbClaim) : Prop :=
  c.version = some Claim__0_0_1 ∧
  c.claimType = some Claim_streamType ∧
  getStreamVersion c = some Stream__0_0_1 ∧
  getMetadataVersion c = some Metadata__0_1_0 ∧
  getSourceVersion c = some Source__0_0_1 ∧
  getFeeVersion c = some Fee__0_0_1

end LbryClaim

namespace LbryClaim

/-- C9: for every legacy record of every version V1/V2/V3, the publisher
signature of the migrated canonical claim is absent, regardless of input. -/
theorem C9_publisher_signature_absent (v1 : V1Claim) (v2 : V2Claim) (v3 : V3Claim) :
    (migrateV1Claim v1).1.publisherSignature = none ∧
    (migrateV2Claim v2).1.publisherSignature = none ∧
    (migrateV3Claim v3).1.publisherSignature = none := by
  obtain ⟨A, D, L, Li, T, Th, CT, ⟨S⟩, F⟩ := v1
  obtain ⟨A2, D2, L2, Li2, LU2, T2, Th2, N2, CT2, ⟨S2⟩, F2⟩ := v2
  obtain ⟨A3, D3, L3, Li3, LU3, T3, Th3, N3, CT3, ⟨S3⟩, F3⟩ := v3
  cases F <;> cases F2 <;> cases F3 <;> exact ⟨rfl, rfl, rfl⟩

/-- C3: for every canonical claim produced by any of the three migrators,
all version tags (claim, stream, metadata, source, fee) and the claim-type
tag equal the engine's fixed constants, regardless of the input record. -/
theorem C3_version_tags_constant (v1 : V1Claim) (v2 : V2Claim) (v3 : V3Claim) :
    versionTagsFixed (migrateV1Claim v1).1 ∧
    versionTagsFixed (migrateV2Claim v2).1 ∧
    versionTagsFixed (migrateV3Claim v3).1 := by
  obtain ⟨A, D, L, Li, T, Th, CT, ⟨S⟩, F⟩ := v1
  obtain ⟨A2, D2, L2, Li2, LU2, T2, Th2, N2, CT2, ⟨S2⟩, F2⟩ := v2
  obtain ⟨A3, D3, L3, Li3, LU3, T3, Th3, N3, CT3, ⟨S3⟩, F3⟩ := v3
  cases F <;> cases F2 <;> cases F3 <;>
    exact ⟨⟨rfl, rfl, rfl, rfl, rfl, rfl⟩, ⟨rfl, rfl, rfl, rfl, rfl, rfl⟩,
      ⟨rfl, rfl, rfl, rfl, rfl, rfl⟩⟩

/-- C6: for every V1 record the migrated claim has NSFW false and license
URL absent; for every V2 and V3 record the NSFW flag and license URL pass
through to the output unchanged. -/
theorem C6_version_defaults (v1 : V1Claim) (v2 : V2Claim) (v3 : V3Claim) :
    getNsfw (migrateV1Claim v1).1 = some false ∧
    getLicenseUrl (migrateV1Claim v1).1 = none ∧
    getNsfw (migrateV2Claim v2).1 = some v2.NSFW ∧
    getLicenseUrl (migrateV2Claim v2).1 = v2.LicenseURL ∧
    getNsfw (migrateV3Claim v3).1 = some v3.NSFW ∧
    getLicenseUrl (migrateV3Claim v3).1 = v3.LicenseURL := by
  obtain ⟨A, D, L, Li, T, Th, CT, ⟨S⟩, F⟩ := v1
  obtain ⟨A2, D2, L2, Li2, LU2, T2, Th2, N2, CT2, ⟨S2⟩, F2⟩ := v2
  obtain ⟨A3, D3, L3, Li3, LU3, T3, Th3, N3, CT3, ⟨S3⟩, F3⟩ := v3
  cases F <;> cases F2 <;> cases F3 <;> exact ⟨rfl, rfl, rfl, rfl, rfl, rfl⟩

/-- A concrete V1 record with no legacy fee, used to examine the fee
sub-message of its migration output. -/
def v1NoFee : V1Claim :=
  { Author := "alice", Description := "d", Language := "en", License := "mit",
    Title := "t", Thumbnail := none, ContentType := "video/mp4",
    Sources := { LbrySDHash := "dead" }, Fee := none }

/-- C1 counterexample: migrating a concrete V1 record whose legacy fee is
absent still yields a Metadata carrying a Fee sub-message (the factory
attaches one with its version tag), so the claimed "no Fee sub-message when
the legacy fee is absent" is false. -/
theorem C1_counterexample :
    v1NoFee.Fee = none ∧
    getFee (migrateV1Claim v1NoFee).1 = some { version := some Fee__0_0_1 } := by
  exact ⟨rfl, rfl⟩

/-- C1 amended: the migrated claim's Metadata always carries a Fee
sub-message, allocated by the factory with its version tag; the presence of
the legacy fee descriptor determines whether the fee's amount (and with it
currency and address) is populated, not whether the sub-message exists. -/
theorem C1_fee_presence (v1 : V1Claim) (v2 : V2Claim) (v3 : V3Claim) :
    ((getFee (migrateV1Claim v1).1).isSome = true ∧
      ((getFeeAmount (migrateV1Claim v1).1).isSome = true ↔ v1.Fee.isSome = true)) ∧
    ((getFee (migrateV2Claim v2).1).isSome = true ∧
      ((getFeeAmount (migrateV2Claim v2).1).isSome = true ↔ v2.Fee.isSome = true)) ∧
    ((getFee (migrateV3Claim v3).1).isSome = true ∧
      ((getFeeAmount (migrateV3Claim v3).1).isSome = true ↔ v3.Fee.isSome = true)) := by
  obtain ⟨A, D, L, Li, T, Th, CT, ⟨S⟩, F⟩ := v1
  obtain ⟨A2, D2, L2, Li2, LU2, T2, Th2, N2, CT2, ⟨S2⟩, F2⟩ := v2
  obtain ⟨A3, D3, L3, Li3, LU3, T3, Th3, N3, CT3, ⟨S3⟩, F3⟩ := v3
  cases F <;> cases F2 <;> cases F3 <;>
    exact ⟨⟨rfl, Iff.rfl⟩, ⟨rfl, Iff.rfl⟩, ⟨rfl, Iff.rfl⟩⟩

/-- A concrete V1 record whose content digest is not valid hexadecimal. -/
def v1BadDigest : V1Claim :=
  { Author := "alice", Description := "d", Language := "en", License := "mit",
    Title := "t", Thumbnail := none, ContentType := "video/mp4",
    Sources := { LbrySDHash := "deadzz" }, Fee := none }

/-- C2 counterexample: migrating a concrete V1 record with digest
`"deadzz"` does return an error, but the caller also receives a populated
canonical claim (its author is set) whose Source holds the two bytes
decoded before the bad character — digest decoding partially succeeded and
a partial claim was returned, contrary to the claim. -/
theorem C2_counterexample :
    (migrateV1Claim v1BadDigest).2 = some (HexError.invalidByte 'z') ∧
    getAuthor (migrateV1Claim v1BadDigest).1 = some "alice" ∧
    getSourceBytes (migrateV1Claim v1BadDigest).1 = some [222, 173] := by
  exact ⟨rfl, rfl, rfl⟩

/-- C2 amended: for every legacy record whose content digest is not valid
hexadecimal, migration returns the digest-decode error, but alongside it the
caller receives the populated canonical claim, whose Source holds the bytes
the hex decoder produced before the error (decoding can partially
succeed). -/
theorem C2_bad_digest (v1 : V1Claim) (v2 : V2Claim) (v3 : V3Claim)
    (h1 : (hexDecodeString v1.Sources.LbrySDHash).2.isSome = true)
    (h2 : (hexDecodeString v2.Sources.LbrySDHash).2.isSome = true)
    (h3 : (hexDecodeString v3.Sources.LbrySDHash).2.isSome = true) :
    ((migrateV1Claim v1).2.isSome = true ∧
      (getMetadata (migrateV1Claim v1).1).isSome = true ∧
      getSourceBytes (migrateV1Claim v1).1 = some (hexDecodeString v1.Sources.LbrySDHash).1) ∧
    ((migrateV2Claim v2).2.isSome = true ∧
      (getMetadata (migrateV2Claim v2).1).isSome = true ∧
      getSourceBytes (migrateV2Claim v2).1 = some (hexDecodeString v2.Sources.LbrySDHash).1) ∧
    ((migrateV3Claim v3).2.isSome = true ∧
      (getMetadata (migrateV3Claim v3).1).isSome = true ∧
      getSourceBytes (migrateV3Claim v3).1 = some (hexDecodeString v3.Sources.LbrySDHash).1) := by
  obtain ⟨A, D, L, Li, T, Th, CT, ⟨S⟩, F⟩ := v1
  obtain ⟨A2, D2, L2, Li2, LU2, T2, Th2, N2, CT2, ⟨S2⟩, F2⟩ := v2
  obtain ⟨A3, D3, L3, Li3, LU3, T3, Th3, N3, CT3, ⟨S3⟩, F3⟩ := v3
  cases F <;> cases F2 <;> cases F3 <;>
    exact ⟨⟨h1, rfl, rfl⟩, ⟨h2, rfl, rfl⟩, ⟨h3, rfl, rfl⟩⟩

/-- A concrete V2 record with a malformed digest, for the C2 witness. -/
def v2BadDigest : V2Claim :=
  { Author := "bob", Description := "d", Language := "en", License := "mit",
    LicenseURL := some "https://x", Title := "t", Thumbnail := none, NSFW := true,
    ContentType := "video/mp4", Sources := { LbrySDHash := "abc" }, Fee := none }

/-- A concrete V3 record with a malformed digest, for the C2 witness. -/
def v3BadDigest : V3Claim :=
  { Author := "carol", Description := "d", Language := "en", License := "mit",
    LicenseURL := none, Title := "t", Thumbnail := none, NSFW := false,
    ContentType := "video/mp4", Sources := { LbrySDHash := "zz" }, Fee := none }

/-- C2 witness: the amended statement instantiated at concrete records with
malformed digests. -/
theorem C2_bad_digest_witness :
    ((hexDecodeString v1BadDigest.Sources.LbrySDHash).2.isSome = true ∧
      (hexDecodeString v2BadDigest.Sources.LbrySDHash).2.isSome = true ∧
      (hexDecodeString v3BadDigest.Sources.LbrySDHash).2.isSome = true) ∧
    ((migrateV1Claim v1BadDigest).2.isSome = true ∧
      getSourceBytes (migrateV1Claim v1BadDigest).1 =
        some (hexDecodeString v1BadDigest.Sources.LbrySDHash).1) :=
  ⟨⟨by decide, by decide, by decide⟩,
    ⟨(C2_bad_digest v1BadDigest v2BadDigest v3BadDigest (by decide) (by decide)
        (by decide)).1.1,
      (C2_bad_digest v1BadDigest v2BadDigest v3BadDigest (by decide) (by decide)
        (by decide)).1.2.2⟩⟩

/-- C4: when the legacy fee descriptor is present, `setFee` inspects the
BTC, LBC, USD branches in that fixed priority order on the fresh canonical
skeleton; the first populated branch alone determines currency, amount and
the address string handed to base58 decoding (later populated branches do
not appear in the hypotheses of their priority case and are ignored). -/
theorem C4_fee_priority (f : Fee) :
    (∀ b, f.BTC = some b →
      getFeeCurrency (setFee (some f) newClaim) = some Fee_Currency.BTC ∧
      getFeeAmount (setFee (some f) newClaim) = some b.Amount ∧
      getFeeAddress (setFee (some f) newClaim) = some (base58Decode b.Address)) ∧
    (∀ l, f.BTC = none → f.LBC = some l →
      getFeeCurrency (setFee (some f) newClaim) = some Fee_Currency.LBC ∧
      getFeeAmount (setFee (some f) newClaim) = some l.Amount ∧
      getFeeAddress (setFee (some f) newClaim) = some (base58Decode l.Address)) ∧
    (∀ u, f.BTC = none → f.LBC = none → f.USD = some u →
      getFeeCurrency (setFee (some f) newClaim) = some Fee_Currency.USD ∧
      getFeeAmount (setFee (some f) newClaim) = some u.Amount ∧
      getFeeAddress (setFee (some f) newClaim) = some (base58Decode u.Address)) := by
  obtain ⟨B, L, U⟩ := f
  refine ⟨?_, ?_, ?_⟩
  · intro b hb
    cases hb
    exact ⟨rfl, rfl, rfl⟩
  · intro l hB hL
    cases hB
    cases hL
    exact ⟨rfl, rfl, rfl⟩
  · intro u hB hL hU
    cases hB
    cases hL
    cases hU
    exact ⟨rfl, rfl, rfl⟩

/-- A legacy fee descriptor with both the BTC and the USD branch populated
(malformed input), for the C4 witness. -/
def feeBtcAndUsd : Fee :=
  { BTC := some { Amount := 2, Address := "2g" },
    LBC := none,
    USD := some { Amount := 3, Address := "x" } }

/-- C4 witness: on a descriptor with both BTC and USD populated, the BTC
branch wins — currency BTC, its amount, its address decoded. -/
theorem C4_fee_priority_witness :
    feeBtcAndUsd.BTC = some { Amount := 2, Address := "2g" } ∧
    feeBtcAndUsd.USD = some { Amount := 3, Address := "x" } ∧
    getFeeCurrency (setFee (some feeBtcAndUsd) newClaim) = some Fee_Currency.BTC ∧
    getFeeAmount (setFee (some feeBtcAndUsd) newClaim) = some 2 ∧
    getFeeAddress (setFee (some feeBtcAndUsd) newClaim) = some [97] :=
  ⟨rfl, rfl,
    ((C4_fee_priority feeBtcAndUsd).1 { Amount := 2, Address := "2g" } rfl).1,
    ((C4_fee_priority feeBtcAndUsd).1 { Amount := 2, Address := "2g" } rfl).2.1,
    by
      rw [((C4_fee_priority feeBtcAndUsd).1 { Amount := 2, Address := "2g" } rfl).2.2]
      decide⟩

/-- C5: a present legacy fee descriptor with no populated branch normalizes,
without an error channel, to the canonical fee with currency LBC, amount 0
and zero-length address bytes. -/
theorem C5_empty_fee_default (f : Fee)
    (hB : f.BTC = none) (hL : f.LBC = none) (hU : f.USD = none) :
    getFeeCurrency (setFee (some f) newClaim) = some Fee_Currency.LBC ∧
    getFeeAmount (setFee (some f) newClaim) = some 0 ∧
    getFeeAddress (setFee (some f) newClaim) = some [] := by
  obtain ⟨B, L, U⟩ := f
  cases hB
  cases hL
  cases hU
  refine ⟨rfl, rfl, ?_⟩
  decide

/-- C5 witness: the statement instantiated at the all-absent descriptor. -/
theorem C5_empty_fee_default_witness :
    (Fee.mk none none none).BTC = none ∧
    (Fee.mk none none none).LBC = none ∧
    (Fee.mk none none none).USD = none ∧
    (getFeeCurrency (setFee (some (Fee.mk none none none)) newClaim) = some Fee_Currency.LBC ∧
      getFeeAmount (setFee (some (Fee.mk none none none)) newClaim) = some 0 ∧
      getFeeAddress (setFee (some (Fee.mk none none none)) newClaim) = some []) :=
  ⟨rfl, rfl, rfl, C5_empty_fee_default (Fee.mk none none none) rfl rfl rfl⟩

/-- Go map indexing on a key matching no table entry yields the zero value. -/
theorem mapIndex_eq_zero {table : List (String × Nat)} {key : String}
    (h : ∀ p ∈ table, p.1 ≠ key) : mapIndex table key = 0 := by
  induction table with
  | nil => rfl
  | cons a t ih =>
    have ha : (a.1 == key) = false := by
      simpa using h a (List.mem_cons_self a t)
    have ht := ih (fun p hp => h p (List.mem_cons_of_mem a hp))
    simpa [mapIndex, List.find?_cons, ha] using ht

/-- The language of a migrated V1 claim is the table lookup of the record's
free-text language. -/
theorem migrateV1Claim_language (v : V1Claim) :
    getLanguage (migrateV1Claim v).1 = some (mapIndex Metadata_Language_value v.Language) := by
  obtain ⟨A, D, L, Li, T, Th, CT, ⟨S⟩, F⟩ := v
  cases F <;> rfl

/-- The language of a migrated V2 claim is the table lookup of the record's
free-text language. -/
theorem migrateV2Claim_language (v : V2Claim) :
    getLanguage (migrateV2Claim v).1 = some (mapIndex Metadata_Language_value v.Language) := by
  obtain ⟨A, D, L, Li, LU, T, Th, N, CT, ⟨S⟩, F⟩ := v
  cases F <;> rfl

/-- The language of a migrated V3 claim is the table lookup of the record's
free-text language. -/
theorem migrateV3Claim_language (v : V3Claim) :
    getLanguage (migrateV3Claim v).1 = some (mapIndex Metadata_Language_value v.Language) := by
  obtain ⟨A, D, L, Li, LU, T, Th, N, CT, ⟨S⟩, F⟩ := v
  cases F <;> rfl

/-- C7: the free-text language maps to the language enum through exact-match
lookup in the language table; when no entry matches, the output language is
the zero-value enum member, and the migration's error result is exactly the
digest decoder's — the language never makes migration fail. -/
theorem C7_language_lookup (v1 : V1Claim) (v2 : V2Claim) (v3 : V3Claim)
    (h1 : ∀ p ∈ Metadata_Language_value, p.1 ≠ v1.Language)
    (h2 : ∀ p ∈ Metadata_Language_value, p.1 ≠ v2.Language)
    (h3 : ∀ p ∈ Metadata_Language_value, p.1 ≠ v3.Language) :
    (getLanguage (migrateV1Claim v1).1 = some 0 ∧
      (migrateV1Claim v1).2 = (hexDecodeString v1.Sources.LbrySDHash).2) ∧
    (getLanguage (migrateV2Claim v2).1 = some 0 ∧
      (migrateV2Claim v2).2 = (hexDecodeString v2.Sources.LbrySDHash).2) ∧
    (getLanguage (migrateV3Claim v3).1 = some 0 ∧
      (migrateV3Claim v3).2 = (hexDecodeString v3.Sources.LbrySDHash).2) := by
  refine ⟨⟨?_, rfl⟩, ⟨?_, rfl⟩, ⟨?_, rfl⟩⟩
  · rw [migrateV1Claim_language, mapIndex_eq_zero h1]
  · rw [migrateV2Claim_language, mapIndex_eq_zero h2]
  · rw [migrateV3Claim_language, mapIndex_eq_zero h3]

/-- A concrete V1 record whose free-text language matches no table entry. -/
def v1OddLanguage : V1Claim :=
  { Author := "alice", Description := "d", Language := "qq", License := "mit",
    Title := "t", Thumbnail := none, ContentType := "video/mp4",
    Sources := { LbrySDHash := "dead" }, Fee := none }

/-- A concrete V2 record whose free-text language matches no table entry. -/
def v2OddLanguage : V2Claim :=
  { Author := "bob", Description := "d", Language := "klingon", License := "mit",
    LicenseURL := none, Title := "t", Thumbnail := none, NSFW := false,
    ContentType := "video/mp4", Sources := { LbrySDHash := "dead" }, Fee := none }

/-- A concrete V3 record whose free-text language matches no table entry. -/
def v3OddLanguage : V3Claim :=
  { Author := "carol", Description := "d", Language := "??", License := "mit",
    LicenseURL := none, Title := "t", Thumbnail := none, NSFW := false,
    ContentType := "video/mp4", Sources := { LbrySDHash := "dead" }, Fee := none }

/-- C7 witness: records with unmatched language text migrate to the
zero-value language enum without an error. -/
theorem C7_language_lookup_witness :
    (∀ p ∈ Metadata_Language_value, p.1 ≠ v1OddLanguage.Language) ∧
    (getLanguage (migrateV1Claim v1OddLanguage).1 = some 0 ∧
      (migrateV1Claim v1OddLanguage).2 =
        (hexDecodeString v1OddLanguage.Sources.LbrySDHash).2) :=
  ⟨by decide,
    (C7_language_lookup v1OddLanguage v2OddLanguage v3OddLanguage
      (by decide) (by decide) (by decide)).1⟩

/-- A character outside the base58 alphabet makes the digit scan fail as a
whole. -/
theorem b58Digits_eq_none {c : Char} {l : List Char}
    (hmem : c ∈ l) (hbad : b58Digit c = none) : b58Digits l = none := by
  induction l with
  | nil => cases hmem
  | cons a t ih =>
    rcases List.mem_cons.mp hmem with h | h
    · subst h
      simp [b58Digits, hbad]
    · have ht := ih h
      cases hd : b58Digit a with
      | none => simp [b58Digits, hd]
      | some d => simp [b58Digits, hd, ht]

/-- C8: with a present legacy fee the payment address of the populated
branch is always handed to the base58 decoder (whose result lands in the
canonical fee's address field); any address containing a character outside
the base58 alphabet decodes to the zero-length byte sequence rather than an
error; and the migration's error result equals the digest decoder's alone,
so an undecodable address never aborts a migration. -/
theorem C8_address_leniency (s : String) (c : Char) (f : Fee)
    (hmem : c ∈ s.data) (hbad : b58Digit c = none) :
    base58Decode s = [] ∧
    (∀ b, f.BTC = some b →
      getFeeAddress (setFee (some f) newClaim) = some (base58Decode b.Address)) ∧
    (∀ l, f.BTC = none → f.LBC = some l →
      getFeeAddress (setFee (some f) newClaim) = some (base58Decode l.Address)) ∧
    (∀ u, f.BTC = none → f.LBC = none → f.USD = some u →
      getFeeAddress (setFee (some f) newClaim) = some (base58Decode u.Address)) ∧
    (∀ v : V1Claim, (migrateV1Claim v).2 = (hexDecodeString v.Sources.LbrySDHash).2) ∧
    (∀ v : V2Claim, (migrateV2Claim v).2 = (hexDecodeString v.Sources.LbrySDHash).2) ∧
    (∀ v : V3Claim, (migrateV3Claim v).2 = (hexDecodeString v.Sources.LbrySDHash).2) := by
  obtain ⟨B, L, U⟩ := f
  refine ⟨?_, ?_, ?_, ?_, fun v => rfl, fun v => rfl, fun v => rfl⟩
  · simp [base58Decode, b58Digits_eq_none hmem hbad]
  · intro b hb
    cases hb
    rfl
  · intro l hB hL
    cases hB
    cases hL
    rfl
  · intro u hB hL hU
    cases hB
    cases hL
    cases hU
    rfl

/-- A legacy fee whose BTC branch carries an address containing `'0'`, a
character outside the base58 alphabet. -/
def feeBadAddress : Fee :=
  { BTC := some { Amount := 1, Address := "0" }, LBC := none, USD := none }

/-- C8 witness: a malformed base58 address decodes to the zero-length byte
sequence, the decode result lands in the canonical fee, and a record
carrying that fee migrates with no error. -/
theorem C8_address_leniency_witness :
    ('0' ∈ "0".data ∧ b58Digit '0' = none) ∧
    base58Decode "0" = [] ∧
    getFeeAddress (setFee (some feeBadAddress) newClaim) = some [] ∧
    (migrateV1Claim { v1NoFee with Fee := some feeBadAddress }).2 =
      (hexDecodeString v1NoFee.Sources.LbrySDHash).2 :=
  ⟨⟨by decide, by decide⟩,
    (C8_address_leniency "0" '0' feeBadAddress (by decide) (by decide)).1,
    by
      rw [(C8_address_leniency "0" '0' feeBadAddress (by decide) (by decide)).2.1
        { Amount := 1, Address := "0" } rfl]
      decide,
    (C8_address_leniency "0" '0' feeBadAddress (by decide) (by decide)).2.2.2.2.1
      { v1NoFee with Fee := some feeBadAddress }⟩

/-- C10: a V2 record and a V3 record whose corresponding fields (author,
description, language, license, license URL, title, thumbnail, NSFW flag,
content type, digest, fee) agree migrate to equal canonical claims with
equal error results — `migrateV2Claim` and `migrateV3Claim` are the same
transformation. -/
theorem C10_v2_v3_same (v2 : V2Claim) (v3 : V3Claim)
    (h : (v2.Author, v2.Description, v2.Language, v2.License, v2.LicenseURL,
          v2.Title, v2.Thumbnail, v2.NSFW, v2.ContentType,
          v2.Sources.LbrySDHash, v2.Fee) =
         (v3.Author, v3.Description, v3.Language, v3.License, v3.LicenseURL,
          v3.Title, v3.Thumbnail, v3.NSFW, v3.ContentType,
          v3.Sources.LbrySDHash, v3.Fee)) :
    migrateV2Claim v2 = migrateV3Claim v3 := by
  obtain ⟨A2, D2, L2, Li2, LU2, T2, Th2, N2, CT2, ⟨S2⟩, F2⟩ := v2
  obtain ⟨A3, D3, L3, Li3, LU3, T3, Th3, N3, CT3, ⟨S3⟩, F3⟩ := v3
  simp only [Prod.mk.injEq] at h
  obtain ⟨hA, hD, hL, hLi, hLU, hT, hTh, hN, hCT, hS, hF⟩ := h
  subst hA hD hL hLi hLU hT hTh hN hCT hS hF
  rfl

/-- A concrete V2 record for the C10 witness. -/
def v2Sample : V2Claim :=
  { Author := "dora", Description := "d", Language := "en", License := "mit",
    LicenseURL := some "https://x", Title := "t", Thumbnail := some "th", NSFW := true,
    ContentType := "video/mp4", Sources := { LbrySDHash := "beef" },
    Fee := some { BTC := none, LBC := some { Amount := 5, Address := "2g" }, USD := none } }

/-- A concrete V3 record with the same field contents as `v2Sample`. -/
def v3Sample : V3Claim :=
  { Author := "dora", Description := "d", Language := "en", License := "mit",
    LicenseURL := some "https://x", Title := "t", Thumbnail := some "th", NSFW := true,
    ContentType := "video/mp4", Sources := { LbrySDHash := "beef" },
    Fee := some { BTC := none, LBC := some { Amount := 5, Address := "2g" }, USD := none } }

/-- C10 witness: the equivalence instantiated at concrete records with equal
corresponding fields. -/
theorem C10_v2_v3_same_witness :
    (v2Sample.Author, v2Sample.Description, v2Sample.Language, v2Sample.License,
      v2Sample.LicenseURL, v2Sample.Title, v2Sample.Thumbnail, v2Sample.NSFW,
      v2Sample.ContentType, v2Sample.Sources.LbrySDHash, v2Sample.Fee) =
    (v3Sample.Author, v3Sample.Description, v3Sample.Language, v3Sample.License,
      v3Sample.LicenseURL, v3Sample.Title, v3Sample.Thumbnail, v3Sample.NSFW,
      v3Sample.ContentType, v3Sample.Sources.LbrySDHash, v3Sample.Fee) ∧
    migrateV2Claim v2Sample = migrateV3Claim v3Sample :=
  ⟨rfl, C10_v2_v3_same v2Sample v3Sample rfl⟩

end LbryClaim
